import Mathlib

/-!
Shallow embedding of the order-confirmation and payment-settlement workflow of
the Estilo Bicka Airtable extension.

Monetary amounts are JavaScript numbers in the source; they are modelled as
rationals (`Rat`).  `getCellValueAsString` results are modelled as `String`
(empty string for a blank cell) and `getCellValue` results for numeric cells as
`Option Rat` (`none` for a blank cell).  Each multi-step flow is modelled as a
function producing either a validation error (the source shows an `alert` and
returns before any write) or the sequence of store operations issued on its
success path.
-/

/-- A record of the `Líneas de Pedido` table as the extension reads it:
`estatus` = `getCellValueAsString('Estatus')`, `pedidoNum` =
`getCellValueAsString('No. de Pedido')`, `linea` = `getCellValueAsString('Línea')`,
`costo` = `getCellValue('Costo')`, `historial` =
`getCellValueAsString('Historial de Estatus')`. -/
structure LineRecord where
  id : String
  estatus : String
  pedidoNum : String
  linea : String
  costo : Option Rat
  historial : String
  deriving DecidableEq

/-- JavaScript `record.getCellValue('Costo') || 0`: a blank (null) or zero cost
reads as `0`. -/
def lineCost (r : LineRecord) : Rat :=
  match r.costo with
  | none => 0
  | some c => c

/-- JavaScript string `a || b`: the empty string is falsy. -/
def jsOrStr (a b : String) : String :=
  if a = "" then b else a

/-- The sentinel-adjusted order number of a line,
`record.getCellValueAsString('No. de Pedido') || 'Sin No.'` (Confirmados.js,
`groupedByPedido`). -/
def sentinelPedidoNum (r : LineRecord) : String :=
  jsOrStr r.pedidoNum "Sin No."

/-- The grouping key built in Confirmados.js `groupedByPedido`:
the template literal `${pedidoNum}-${linea}` after the sentinel substitution. -/
def lineKey (r : LineRecord) : String :=
  sentinelPedidoNum r ++ "-" ++ r.linea

/-- A group of order lines as accumulated by `groupedByPedido` in Confirmados.js:
the (sentinel-adjusted) order number, the brand (`Línea`), the member records
in insertion order, and the running cost total. -/
structure LineGroup where
  pedidoNum : String
  linea : String
  records : List LineRecord
  totalCosto : Rat
  deriving DecidableEq

/-- The key under which a group is stored in the accumulating object. -/
def gKey (g : LineGroup) : String :=
  g.pedidoNum ++ "-" ++ g.linea

/-- One step of the `reduce` in `groupedByPedido`: the JavaScript code keeps the
groups in an object keyed by `lineKey`; if the key is absent a fresh group is
created (appended in insertion order, since keys contain a hyphen and are never
array indices), then the record is pushed and its cost added.  Because an
object holds at most one entry per key, this is the same as updating the first
group with a matching key, else appending a new group at the end. -/
def insertRecord : List LineGroup → LineRecord → List LineGroup
  | [], r =>
      [{ pedidoNum := sentinelPedidoNum r, linea := r.linea,
         records := [r], totalCosto := 0 + lineCost r }]
  | g :: gs, r =>
      if gKey g = lineKey r then
        { g with records := g.records ++ [r],
                 totalCosto := g.totalCosto + lineCost r } :: gs
      else
        g :: insertRecord gs r

/-- `groupedByPedido` of Confirmados.js: `recordsToConfirm.reduce(...)` followed
by `Object.values`, which returns the groups in insertion order of first-seen
key. -/
def groupLines (records : List LineRecord) : List LineGroup :=
  records.foldl insertRecord []

/-- A proposed payment queued in the settlement modal (ConfirmarPedidoModal of
Confirmados.js): method id, clamped amount, and the four prompt-collected
metadata strings (empty string when the prompt was cancelled or left blank). -/
structure SettlePayment where
  methodId : String
  amount : Rat
  idPago : String
  fechaPago : String
  descripcion : String
  notas : String
  deriving DecidableEq

/-- `payments.reduce((sum, p) => sum + p.amount, 0)` in ConfirmarPedidoModal. -/
def settleTotalPaid (payments : List SettlePayment) : Rat :=
  (payments.map SettlePayment.amount).foldl (· + ·) 0

/-- `totalDue = group.totalCosto + extraCost + extraExpenses` in
ConfirmarPedidoModal: the parsed adjustment inputs are added as they are, with
no clamping of negative values. -/
def settleTotalDue (groupTotalCosto extraCost extraExpenses : Rat) : Rat :=
  groupTotalCosto + extraCost + extraExpenses

/-- `remaining = Math.max(totalDue - totalPaid, 0)` in ConfirmarPedidoModal. -/
def settleRemaining (totalDue totalPaid : Rat) : Rat :=
  max (totalDue - totalPaid) 0

/-- JavaScript `parseFloat(s) || 0` applied to the adjustment inputs: a
non-numeric input (`parseFloat` returns `NaN`, modelled `none`) or `0` becomes
`0`; any other parsed value — including a negative one — is kept. -/
def parseFloatOr0 : Option Rat → Rat
  | none => 0
  | some v => v

/-- Modelled from the spec (§4.1) for comparison with the source: the spec's
formula `totalDue = baseCost + max(extraCost,0) + max(extraExpenses,0)`. -/
def specTotalDue (baseCost extraCost extraExpenses : Rat) : Rat :=
  baseCost + max extraCost 0 + max extraExpenses 0

/-- The static brand-policy object `brandStatus` of Confirmados.js, as an
association list in source order. -/
def brandStatusTable : List (String × String) :=
  [("Belcorp", "Pendiente de Pago"),
   ("Betterware", "Pendiente de Pago"),
   ("Cklass", "Pendiente de Pago"),
   ("Andrea", "Pagado"),
   ("Price Shoes", "Pagado"),
   ("Bibiana", "Pendiente de Pago"),
   ("Andre Badi", "Pagado"),
   ("Nice", "Pendiente de Pago"),
   ("Joyeria", "Pendiente de Pago"),
   ("Vianney", "Pagado"),
   ("Intima", "Pagado"),
   ("Elefantito", "Pagado"),
   ("Esquimal", "Pagado"),
   ("Concord", "Pagado"),
   ("Avon", "Pendiente de Pago"),
   ("Otros", "Pendiente de Pago")]

/-- `brandStatus[linea]`: property lookup on the object, `none` for an unknown
brand. -/
def brandStatusLookup (linea : String) : Option String :=
  (brandStatusTable.find? (fun p => p.1 = linea)).map (fun p => p.2)

/-- `const preferredStatus = brandStatus[group.linea] || 'Pendiente de Pago'`. -/
def preferredStatus (linea : String) : String :=
  match brandStatusLookup linea with
  | none => "Pendiente de Pago"
  | some s => jsOrStr s "Pendiente de Pago"

/-- `const canLeavePending = preferredStatus === 'Pendiente de Pago'`. -/
def canLeavePending (linea : String) : Bool :=
  preferredStatus linea == "Pendiente de Pago"

/-- The static whitelist `allowedPedidoStatuses` of Confirmados.js. -/
def allowedPedidoStatuses : List String :=
  ["Pagado", "Pendiente de Pago", "Pago Incompleto"]

/-- The static whitelist `allowedLineaStatuses` of Confirmados.js. -/
def allowedLineaStatuses : List String :=
  ["Pagado", "Pendiente de Pago", "Pago Incompleto"]

/-- The fallback computation shared by `safePedidoStatus` and `safeLineaStatus`
in `handleConfirm` of Confirmados.js: keep the status when it is both in the
static whitelist and in the dynamically fetched field choices; otherwise fall
back to `'Pendiente de Pago'` when the choices include it, else to
`choices[0] || 'Pendiente de Pago'`. -/
def safeStatus (allowedStatic choices : List String) (status : String) : String :=
  if status ∈ allowedStatic ∧ status ∈ choices then status
  else if "Pendiente de Pago" ∈ choices then "Pendiente de Pago"
  else
    match choices.head? with
    | some c => if c = "" then "Pendiente de Pago" else c
    | none => "Pendiente de Pago"

/-- `const pedidoStatus = remaining > 0 ? (totalPaid > 0 ? 'Pago Incompleto' :
'Pendiente de Pago') : 'Pagado'` in `handleConfirm` of Confirmados.js. -/
def settlePedidoStatus (remaining totalPaid : Rat) : String :=
  if 0 < remaining then
    (if 0 < totalPaid then "Pago Incompleto" else "Pendiente de Pago")
  else "Pagado"

/-- Modelled from the spec (§4.2) for comparison with the source: the
resolution rule evaluated in order — `remaining <= 0` gives Pagado, else
`totalPaid > 0` gives Pago Incompleto, else Pendiente de Pago. -/
def specResolveStatus (remaining totalPaid : Rat) : String :=
  if remaining ≤ 0 then "Pagado"
  else if 0 < totalPaid then "Pago Incompleto"
  else "Pendiente de Pago"

/-- The status computation of `handleSave` in Solicitados.js (lines 124-133):
`newPaidTotal = alreadyPaid + addedPaymentsTotal`, `newRemaining =
Math.max(totalCosto - newPaidTotal, 0)`, then the if/else-if/else chain. -/
def handleSaveStatus (totalCosto alreadyPaid addedPaymentsTotal : Rat) : String :=
  let newPaidTotal := alreadyPaid + addedPaymentsTotal
  let newRemaining := max (totalCosto - newPaidTotal) 0
  if newRemaining ≤ 0 then "Pagado"
  else if 0 < newPaidTotal then "Pago Incompleto"
  else "Pendiente de Pago"

/-- A cell value as written through the store's write API: a plain string, a
number, a single-select or collaborator object `{name: ...}`, a list of linked
record ids `[{id: ...}]`, or an explicit `null`. -/
inductive FieldValue where
  | str : String → FieldValue
  | num : Rat → FieldValue
  | nameObj : String → FieldValue
  | links : List String → FieldValue
  | null : FieldValue
  deriving DecidableEq

/-- One entry of the array passed to `updateRecordsAsync`. -/
structure RecordUpdate where
  id : String
  fields : List (String × FieldValue)
  deriving DecidableEq

/-- A call issued to the record store by one of the flows, in program order.
`permissionCheck op target` stands for the SDK's permission pre-check helpers
(`checkPermissionsFor...` / `hasPermissionTo...`), which the components could
call before a write; `createRecord` is `table.createRecordAsync`,
`updateRecord` is `table.updateRecordAsync`, and `updateRecords` is a single
`table.updateRecordsAsync` call carrying its whole batch. -/
inductive StoreOp where
  | permissionCheck : String → String → StoreOp
  | createRecord : String → List (String × FieldValue) → StoreOp
  | updateRecord : String → String → List (String × FieldValue) → StoreOp
  | updateRecords : String → List RecordUpdate → StoreOp
  deriving DecidableEq

/-- Drops leading whitespace characters from a character list. -/
def dropWhileWs : List Char → List Char
  | [] => []
  | c :: cs => if c.isWhitespace then dropWhileWs cs else c :: cs

/-- JavaScript `s.trim()`: whitespace removed from both ends (modelled
structurally so that concrete values compute). -/
def jsTrim (s : String) : String :=
  String.mk (dropWhileWs (dropWhileWs s.data.reverse).reverse)

/-- The history-append template shared by Confirmados.js and
SelectionSummaryView.js: `` `${prev || ''}${prev ? '\n' : ''}${entry}` `` where
`prev` is the `Historial de Estatus` string read before the write. -/
def joinHist (prev entry : String) : String :=
  prev ++ (if prev = "" then "" else "\n") ++ entry

/-- JavaScript `s || null` on a string field: the empty string becomes an
explicit `null` cell value, any other string is written as itself. -/
def strOrNull (s : String) : FieldValue :=
  if s = "" then FieldValue.null else FieldValue.str s

/-- The fields of the `Pedidos` record created in step 1 of `handleConfirm`
(Confirmados.js). -/
def settlePedidoFields (timestamp pedidoNumeroTrimmed safePedidoStatus pedidoFecha : String)
    (extraCost extraExpenses : Rat) (records : List LineRecord) :
    List (String × FieldValue) :=
  [("No. de Pedido", FieldValue.str pedidoNumeroTrimmed),
   ("Estatus", FieldValue.nameObj safePedidoStatus),
   ("Fecha Pedido", strOrNull pedidoFecha),
   ("Costos Adicionales", FieldValue.num (if extraCost = 0 then 0 else extraCost)),
   ("Gastos Adicionales", FieldValue.num (if extraExpenses = 0 then 0 else extraExpenses)),
   ("Historial de Estatus",
     FieldValue.str (timestamp ++ " - Creado y establecido a " ++ safePedidoStatus)),
   ("Productos", FieldValue.links (records.map LineRecord.id))]

/-- The fields of one `Pagos` record created in step 2 of `handleConfirm`
(Confirmados.js): the four optional metadata fields are always present and are
written as `null` when their string is empty (`payment.idPago || null` and
friends). -/
def settlePagoFields (newPedidoId : String) (p : SettlePayment) :
    List (String × FieldValue) :=
  [("Pedido", FieldValue.links [newPedidoId]),
   ("Método de Pago Admin", FieldValue.links [p.methodId]),
   ("Abono", FieldValue.num p.amount),
   ("ID Pago", strOrNull p.idPago),
   ("Fecha Pago", strOrNull p.fechaPago),
   ("Descripción", strOrNull p.descripcion),
   ("Notas", strOrNull p.notas)]

/-- One entry of the batch passed to `lpTable.updateRecordsAsync` in step 3 of
`handleConfirm` (Confirmados.js). -/
def settleLineUpdate (timestamp pedidoNumeroTrimmed safeLineaStatus : String)
    (r : LineRecord) : RecordUpdate :=
  { id := r.id,
    fields :=
      [("Estatus", FieldValue.nameObj safeLineaStatus),
       ("No. de Pedido", FieldValue.str pedidoNumeroTrimmed),
       ("Historial de Estatus",
         FieldValue.str (joinHist r.historial
           (timestamp ++ " - Asignado No. de Pedido " ++ pedidoNumeroTrimmed ++
             " y cambiado a " ++ safeLineaStatus)))] }

/-- `handleConfirm` of ConfirmarPedidoModal (Confirmados.js), modelled as the
sequence of store calls issued on its success path.  `costosAdicionales` and
`gastosAdicionales` are the parsed adjustment inputs (`parseFloat` results,
`none` for `NaN`); `pedidoStatusChoices` and `lineaStatusChoices` are the
dynamically fetched `Estatus` field choices of the `Pedidos` and
`Líneas de Pedido` tables; `timestamp` is `new Date().toISOString()` and
`newPedidoId` the id returned by `createRecordAsync`.  The two `alert`-and-
return validations happen before any store call. -/
def handleConfirm (g : LineGroup) (pedidoNumero pedidoFecha : String)
    (costosAdicionales gastosAdicionales : Option Rat)
    (payments : List SettlePayment)
    (pedidoStatusChoices lineaStatusChoices : List String)
    (timestamp newPedidoId : String) : Except String (List StoreOp) :=
  if jsTrim pedidoNumero = "" then
    Except.error "El número de pedido es requerido."
  else
    let extraCost := parseFloatOr0 costosAdicionales
    let extraExpenses := parseFloatOr0 gastosAdicionales
    let totalPaid := settleTotalPaid payments
    let totalDue := settleTotalDue g.totalCosto extraCost extraExpenses
    let remaining := settleRemaining totalDue totalPaid
    if 0 < remaining ∧ canLeavePending g.linea = false then
      Except.error "Debes cubrir el total. Esta línea no permite dejar pendiente el pago."
    else
      let pedidoStatus := settlePedidoStatus remaining totalPaid
      let safePedidoStatus := safeStatus allowedPedidoStatuses pedidoStatusChoices pedidoStatus
      let rawLineaStatus := jsOrStr (preferredStatus g.linea) pedidoStatus
      let safeLineaStatus := safeStatus allowedLineaStatuses lineaStatusChoices rawLineaStatus
      Except.ok
        ([StoreOp.createRecord "Pedidos"
            (settlePedidoFields timestamp (jsTrim pedidoNumero) safePedidoStatus pedidoFecha
              extraCost extraExpenses g.records)] ++
         payments.map (fun p => StoreOp.createRecord "Pagos" (settlePagoFields newPedidoId p)) ++
         [StoreOp.updateRecords "Líneas de Pedido"
            (g.records.map (settleLineUpdate timestamp (jsTrim pedidoNumero) safeLineaStatus))])

/-- The store calls of a flow result, the empty list when validation failed
before any call. -/
def opsOf : Except String (List StoreOp) → List StoreOp
  | Except.error _ => []
  | Except.ok l => l

/-- A payment queued in PagarPedidoModal (Solicitados.js): method id, clamped
amount, and the three method-type-conditional metadata values exactly as
`handleAddPayment` stores them (`null` modelled as `none`). -/
structure ModalPayment where
  metodoId : String
  amount : Rat
  quienPago : Option String
  referencia : Option String
  tarjeta : Option String
  deriving DecidableEq

/-- The payment object built by `handleAddPayment` (Solicitados.js): each
metadata value is kept only when the selected method's `TIPO` matches, else set
to `null`. -/
def mkModalPayment (metodoPagoId : String) (metodoType : Option String)
    (adjustedAmount : Rat) (quienPago : Option String) (referencia tarjeta : String) :
    ModalPayment :=
  { metodoId := metodoPagoId,
    amount := adjustedAmount,
    quienPago := if metodoType = some "Efectivo" then quienPago else none,
    referencia := if metodoType = some "Vales" then some referencia else none,
    tarjeta := if metodoType = some "Transferencia" then some tarjeta else none }

/-- The remaining balance shown and used by PagarPedidoModal (Solicitados.js):
`Math.max(totalCosto - alreadyPaid - addedPaymentsTotal, 0)` where
`addedPaymentsTotal` sums the queued-but-unsaved payments. -/
def modalRemaining (totalCosto alreadyPaid : Rat) (payments : List ModalPayment) : Rat :=
  max (totalCosto - alreadyPaid - (payments.map ModalPayment.amount).foldl (· + ·) 0) 0

/-- `handleAddPayment` of PagarPedidoModal (Solicitados.js): `parsedAbono` is
the `parseFloat` result of the amount input (`none` for `NaN`).  The guard
`!metodoPagoId || !amount || amount <= 0` alerts and adds nothing; otherwise
the amount is capped to the remaining balance and the payment is appended. -/
def handleAddPayment (metodoPagoId : Option String) (metodoType : Option String)
    (parsedAbono : Option Rat) (quienPago : Option String) (referencia tarjeta : String)
    (totalCosto alreadyPaid : Rat) (payments : List ModalPayment) :
    Except String (List ModalPayment) :=
  match metodoPagoId, parsedAbono with
  | some mid, some amount =>
      if amount = 0 ∨ amount ≤ 0 then
        Except.error "Please select a payment method and enter a valid amount."
      else
        let remaining := modalRemaining totalCosto alreadyPaid payments
        let adjustedAmount := if remaining < amount then remaining else amount
        Except.ok (payments ++ [mkModalPayment mid metodoType adjustedAmount quienPago referencia tarjeta])
  | _, _ => Except.error "Please select a payment method and enter a valid amount."

/-- The `Quién Realizó Pago` entry added by `if (payment.quienPago)` in
`handleSave` (Solicitados.js): present only for a truthy (non-null, non-empty)
value. -/
def quienPart (oq : Option String) : List (String × FieldValue) :=
  match oq with
  | some q => if q = "" then [] else [("Quién Realizó Pago", FieldValue.nameObj q)]
  | none => []

/-- The `Número de Referencia` entry added by `if (payment.referencia)` in
`handleSave` (Solicitados.js). -/
def refPart (ov : Option String) : List (String × FieldValue) :=
  match ov with
  | some v => if v = "" then [] else [("Número de Referencia", FieldValue.str v)]
  | none => []

/-- The `Tarjeta de Débito` entry added by `if (payment.tarjeta)` in
`handleSave` (Solicitados.js). -/
def tarjetaPart (ov : Option String) : List (String × FieldValue) :=
  match ov with
  | some v => if v = "" then [] else [("Tarjeta de Débito", FieldValue.str v)]
  | none => []

/-- The fields of one `Pagos` record created by `handleSave` (Solicitados.js):
the three method-specific metadata fields are attached by `if (payment.x)`
checks, so a `null` or empty value leaves the field out of the record
entirely. -/
def pagoFields (pedidoId idPago : String) (p : ModalPayment) :
    List (String × FieldValue) :=
  [("Pedido", FieldValue.links [pedidoId]),
   ("Método de Pago Admin", FieldValue.links [p.metodoId]),
   ("Abono", FieldValue.num p.amount),
   ("ID Pago", FieldValue.str idPago)] ++
  quienPart p.quienPago ++ refPart p.referencia ++ tarjetaPart p.tarjeta

/-- `handleSave` of PagarPedidoModal (Solicitados.js), modelled as the store
calls of its success path: one `Pagos` create per queued payment (with a
generated `ID Pago`, abstracted by `genId`), then a single `Pedidos` update
writing the recomputed status — with no consultation of any fetched
allowed-value set. -/
def handleSave (pedidoId : String) (totalCosto alreadyPaid : Rat)
    (payments : List ModalPayment) (genId : Nat → String) :
    Except String (List StoreOp) :=
  if payments.length = 0 then
    Except.error "Please add at least one payment."
  else
    let addedPaymentsTotal := (payments.map ModalPayment.amount).foldl (· + ·) 0
    let newStatus := handleSaveStatus totalCosto alreadyPaid addedPaymentsTotal
    Except.ok
      ((payments.enum.map (fun ip =>
          StoreOp.createRecord "Pagos" (pagoFields pedidoId (genId ip.1) ip.2))) ++
       [StoreOp.updateRecord "Pedidos" pedidoId [("Estatus", FieldValue.nameObj newStatus)]])

/-- One entry of the batch passed to `lpoTable.updateRecordsAsync` in
`handleConfirmSelection` (SelectionSummaryView.js). -/
def confirmUpdate (timestamp : String) (r : LineRecord) : RecordUpdate :=
  { id := r.id,
    fields :=
      [("Estatus", FieldValue.nameObj "Confirmar y Monitorear"),
       ("Historial de Estatus",
         FieldValue.str (joinHist r.historial (timestamp ++ " - Confirmar y Monitorear")))] }

/-- `handleConfirmSelection` of SelectionSummaryView.js: filters the visible
selection to the records whose `Estatus` is `"Abierto"`, alerts and stops when
none qualify, and otherwise issues one single `updateRecordsAsync` call with
the whole batch and reports the updated count and the pre-computed total cost
of the qualifying records. -/
def handleConfirmSelection (visibleRecords : List LineRecord) (timestamp : String) :
    Except String (List StoreOp × Nat × Rat) :=
  let openRecords := visibleRecords.filter (fun r => r.estatus == "Abierto")
  let nonOpenRecords := visibleRecords.filter (fun r => r.estatus != "Abierto")
  if openRecords.length = 0 then
    Except.error
      ("No records with status \"Abierto\" are selected." ++
        (if 0 < nonOpenRecords.length then
          " " ++ toString nonOpenRecords.length ++
            " record(s) skipped because they are not in \"Abierto\"."
         else ""))
  else
    let totalCost := openRecords.foldl (fun sum r => sum + lineCost r) 0
    let updates := openRecords.map (confirmUpdate timestamp)
    Except.ok ([StoreOp.updateRecords "Líneas de Pedido" updates], updates.length, totalCost)

/-- The store calls of a selection-confirmation result. -/
def selOpsOf : Except String (List StoreOp × Nat × Rat) → List StoreOp
  | Except.error _ => []
  | Except.ok r => r.1

/-- Recognises a permission pre-check call. -/
def isPermCheck : StoreOp → Bool
  | StoreOp.permissionCheck _ _ => true
  | _ => false

/-- Recognises a store write call. -/
def isWrite : StoreOp → Bool
  | StoreOp.createRecord _ _ => true
  | StoreOp.updateRecord _ _ _ => true
  | StoreOp.updateRecords _ _ => true
  | _ => false

/-- The batch size of a bulk-update call, `none` for any other operation. -/
def opBatchSize : StoreOp → Option Nat
  | StoreOp.updateRecords _ us => some us.length
  | _ => none

/-- An order line with status `Abierto` and a blank cost, used as concrete
input below. -/
def openLine (i : Nat) : LineRecord :=
  { id := toString i, estatus := "Abierto", pedidoNum := "", linea := "Belcorp",
    costo := none, historial := "" }

/-- Fifty-one selected `Abierto` lines. -/
def lines51 : List LineRecord := (List.range 51).map openLine

/-- A settlement group holding the fifty-one lines, with zero total cost. -/
def group51 : LineGroup :=
  { pedidoNum := "P1", linea := "Belcorp", records := lines51, totalCosto := 0 }

/-- A single `Abierto` line, concrete input for the permission-check claim. -/
def openLine1 : LineRecord :=
  { id := "r1", estatus := "Abierto", pedidoNum := "", linea := "Andrea",
    costo := some 5, historial := "" }

/-- A zero-cost group of one line, concrete settlement input. -/
def zeroGroup1 : LineGroup :=
  { pedidoNum := "Sin No.", linea := "Andrea", records := [openLine1], totalCosto := 0 }

/-- A queued modal payment of 10 with no metadata, concrete input. -/
def modalPay10 : ModalPayment :=
  { metodoId := "m1", amount := 10, quienPago := none, referencia := none, tarjeta := none }

/-- A line of unknown brand `Zara` with zero cost, concrete input for the
line-status claim. -/
def zaraLine : LineRecord :=
  { id := "z1", estatus := "Confirmar y Monitorear", pedidoNum := "", linea := "Zara",
    costo := some 0, historial := "" }

/-- A fully-covered (zero-due) group of the `Zara` line. -/
def zaraGroup : LineGroup :=
  { pedidoNum := "Sin No.", linea := "Zara", records := [zaraLine], totalCosto := 0 }

/-- Two lines whose distinct (order number, brand) pairs concatenate to the
same grouping key `A-B-C`. -/
def collideLine1 : LineRecord :=
  { id := "c1", estatus := "", pedidoNum := "A-B", linea := "C", costo := none, historial := "" }

/-- Companion of `collideLine1` with the colliding key. -/
def collideLine2 : LineRecord :=
  { id := "c2", estatus := "", pedidoNum := "A", linea := "B-C", costo := none, historial := "" }

/-- A single line of brand `Andrea` with cost 7, concrete grouping input. -/
def witLine : LineRecord :=
  { id := "w1", estatus := "Abierto", pedidoNum := "", linea := "Andrea",
    costo := some 7, historial := "" }

/-- The group that `groupLines [witLine]` produces. -/
def witGroup : LineGroup :=
  { pedidoNum := "Sin No.", linea := "Andrea", records := [witLine], totalCosto := 0 + 7 }

/-- A settlement payment whose four optional metadata strings are all empty. -/
def emptyMetaPay : SettlePayment :=
  { methodId := "m1", amount := 10, idPago := "", fechaPago := "", descripcion := "", notas := "" }

theorem foldl_add_eq_sum (l : List Rat) (a : Rat) : l.foldl (· + ·) a = a + l.sum := by
  induction l generalizing a with
  | nil => simp
  | cons x xs ih => simp only [List.foldl_cons, ih, List.sum_cons]; ring

theorem gKey_update (g : LineGroup) (rs : List LineRecord) (c : Rat) :
    gKey { g with records := rs, totalCosto := c } = gKey g := rfl

theorem insertRecord_bind_perm (gs : List LineGroup) (r : LineRecord) :
    ((insertRecord gs r).flatMap LineGroup.records).Perm
      ((gs.flatMap LineGroup.records) ++ [r]) := by
  induction gs with
  | nil => simp [insertRecord]
  | cons g gs ih =>
    by_cases h : gKey g = lineKey r
    · simp only [insertRecord, if_pos h, List.flatMap_cons, List.append_assoc]
      exact List.Perm.append_left _ List.perm_append_comm
    · simp only [insertRecord, if_neg h, List.flatMap_cons, List.append_assoc]
      exact List.Perm.append_left _ ih

theorem mem_keys_insertRecord (gs : List LineGroup) (r : LineRecord) (x : String)
    (hx : x ∈ (insertRecord gs r).map gKey) : x ∈ gs.map gKey ∨ x = lineKey r := by
  induction gs with
  | nil =>
    right
    simp [insertRecord] at hx
    rw [hx]
    rfl
  | cons g gs ih =>
    by_cases h : gKey g = lineKey r
    · simp only [insertRecord, if_pos h, List.map_cons, gKey_update, List.mem_cons] at hx
      rcases hx with hx | hx
      · exact Or.inl (by simp [hx])
      · exact Or.inl (List.mem_cons_of_mem _ hx)
    · simp only [insertRecord, if_neg h, List.map_cons, List.mem_cons] at hx
      rcases hx with hx | hx
      · exact Or.inl (by simp [hx])
      · rcases ih hx with h1 | h2
        · exact Or.inl (List.mem_cons_of_mem _ h1)
        · exact Or.inr h2

theorem keys_nodup_insertRecord {gs : List LineGroup} (r : LineRecord)
    (h : (gs.map gKey).Nodup) : ((insertRecord gs r).map gKey).Nodup := by
  induction gs with
  | nil => simp [insertRecord]
  | cons g gs ih =>
    rw [List.map_cons, List.nodup_cons] at h
    by_cases hk : gKey g = lineKey r
    · simp only [insertRecord, if_pos hk, List.map_cons, gKey_update, List.nodup_cons]
      exact ⟨h.1, h.2⟩
    · simp only [insertRecord, if_neg hk, List.map_cons, List.nodup_cons]
      refine ⟨fun hmem => ?_, ih h.2⟩
      rcases mem_keys_insertRecord gs r _ hmem with hin | heq
      · exact h.1 hin
      · exact hk heq

theorem insertRecord_groups_ok {gs : List LineGroup} (r : LineRecord)
    (h : ∀ g ∈ gs, g.totalCosto = (g.records.map lineCost).sum ∧
           ∀ r' ∈ g.records, lineKey r' = gKey g) :
    ∀ g ∈ insertRecord gs r,
      g.totalCosto = (g.records.map lineCost).sum ∧
        ∀ r' ∈ g.records, lineKey r' = gKey g := by
  induction gs with
  | nil =>
    intro g hg
    simp only [insertRecord, List.mem_singleton] at hg
    subst hg
    refine ⟨by simp, ?_⟩
    intro r' hr'
    simp only [List.mem_singleton] at hr'
    subst hr'
    rfl
  | cons g0 gs ih =>
    intro g hg
    have h0 := h g0 (List.mem_cons_self g0 gs)
    have htail : ∀ g ∈ gs, g.totalCosto = (g.records.map lineCost).sum ∧
        ∀ r' ∈ g.records, lineKey r' = gKey g :=
      fun g' hg' => h g' (List.mem_cons_of_mem _ hg')
    by_cases hk : gKey g0 = lineKey r
    · simp only [insertRecord, if_pos hk, List.mem_cons] at hg
      rcases hg with hg | hg
      · subst hg
        constructor
        · simp only [gKey_update, List.map_append, List.sum_append, List.map_cons,
            List.map_nil, List.sum_cons, List.sum_nil]
          rw [h0.1]
          ring
        · intro r' hr'
          rw [gKey_update]
          rcases List.mem_append.mp hr' with hr' | hr'
          · exact h0.2 r' hr'
          · simp only [List.mem_singleton] at hr'
            subst hr'
            exact hk.symm
      · exact htail g hg
    · simp only [insertRecord, if_neg hk, List.mem_cons] at hg
      rcases hg with hg | hg
      · subst hg
        exact h0
      · exact ih htail g hg

theorem insertRecord_total (gs : List LineGroup) (r : LineRecord) :
    ((insertRecord gs r).map LineGroup.totalCosto).sum
      = (gs.map LineGroup.totalCosto).sum + lineCost r := by
  induction gs with
  | nil => simp [insertRecord]
  | cons g gs ih =>
    by_cases hk : gKey g = lineKey r
    · simp only [insertRecord, if_pos hk, List.map_cons, List.sum_cons]
      ring
    · simp only [insertRecord, if_neg hk, List.map_cons, List.sum_cons, ih]
      ring

theorem foldl_insertRecord_total (rs : List LineRecord) :
    ∀ gs : List LineGroup,
      ((rs.foldl insertRecord gs).map LineGroup.totalCosto).sum
        = (gs.map LineGroup.totalCosto).sum + (rs.map lineCost).sum := by
  induction rs with
  | nil => intro gs; simp
  | cons r rs ih =>
    intro gs
    simp only [List.foldl_cons, ih, insertRecord_total, List.map_cons, List.sum_cons]
    ring

theorem foldl_insertRecord_perm (rs : List LineRecord) :
    ∀ gs : List LineGroup,
      ((rs.foldl insertRecord gs).flatMap LineGroup.records).Perm
        (gs.flatMap LineGroup.records ++ rs) := by
  induction rs with
  | nil => intro gs; simp
  | cons r rs ih =>
    intro gs
    have h1 := ih (insertRecord gs r)
    have h2 := (insertRecord_bind_perm gs r).append_right rs
    have h3 := h1.trans h2
    simpa [List.append_assoc] using h3

theorem foldl_insertRecord_inv (rs : List LineRecord) :
    ∀ gs : List LineGroup,
      (∀ g ∈ gs, g.totalCosto = (g.records.map lineCost).sum ∧
          ∀ r' ∈ g.records, lineKey r' = gKey g) →
      (gs.map gKey).Nodup →
      (∀ g ∈ rs.foldl insertRecord gs,
          g.totalCosto = (g.records.map lineCost).sum ∧
            ∀ r' ∈ g.records, lineKey r' = gKey g) ∧
        ((rs.foldl insertRecord gs).map gKey).Nodup := by
  induction rs with
  | nil => intro gs h1 h2; exact ⟨h1, h2⟩
  | cons r rs ih =>
    intro gs h1 h2
    exact ih (insertRecord gs r) (insertRecord_groups_ok r h1) (keys_nodup_insertRecord r h2)

/-- C1 (counterexample): the claim says `totalDue = baseCost + max(extraCost,0)
+ max(extraExpenses,0)` and that a negative adjustment input never reduces
`totalDue`; but the settlement ledger adds the parsed adjustment unclamped, so
for baseCost 100 and extraCost input `-5` the code computes 95 while the
claimed formula gives 100, and the negative adjustment strictly reduces the
total due. -/
theorem C1_counterexample :
    parseFloatOr0 (some (-5)) = -5 ∧
    settleTotalDue 100 (-5) 0 = 95 ∧
    specTotalDue 100 (-5) 0 = 100 ∧
    settleTotalDue 100 (-5) 0 ≠ specTotalDue 100 (-5) 0 ∧
    settleTotalDue 100 (-5) 0 < settleTotalDue 100 0 0 := by
  refine ⟨rfl, ?_, ?_, ?_, ?_⟩ <;>
    norm_num [settleTotalDue, specTotalDue]

/-- C1 (amended): the monetary ledger computes `totalDue = baseCost + extraCost
+ extraExpenses` with no clamping (a negative adjustment input does reduce
`totalDue`), `totalPaid` is the sum of the proposed payment amounts, and
`remaining = max(totalDue − totalPaid, 0)` is never negative and equals 0
whenever `totalPaid ≥ totalDue`. -/
theorem C1_ledger (b e1 e2 : Rat) (ps : List SettlePayment) :
    settleTotalDue b e1 e2 = b + e1 + e2 ∧
    settleTotalPaid ps = (ps.map SettlePayment.amount).sum ∧
    0 ≤ settleRemaining (settleTotalDue b e1 e2) (settleTotalPaid ps) ∧
    (settleTotalDue b e1 e2 ≤ settleTotalPaid ps →
      settleRemaining (settleTotalDue b e1 e2) (settleTotalPaid ps) = 0) ∧
    (e1 < 0 → settleTotalDue b e1 e2 < settleTotalDue b 0 e2) := by
  refine ⟨rfl, ?_, le_max_right _ _, ?_, ?_⟩
  · rw [settleTotalPaid, foldl_add_eq_sum, zero_add]
  · intro h
    exact max_eq_right (sub_nonpos.mpr h)
  · intro h
    unfold settleTotalDue
    linarith

/-- Witness for `C1_ledger` at baseCost 50, extraCost −1, one payment of 60. -/
theorem C1_ledger_witness :
    settleRemaining (settleTotalDue 50 (-1) 0)
        (settleTotalPaid [⟨"m", 60, "", "", "", ""⟩]) = 0 ∧
    settleTotalDue 50 (-1) 0 < settleTotalDue 50 0 0 := by
  have h := C1_ledger 50 (-1) 0 [⟨"m", 60, "", "", "", ""⟩]
  exact ⟨h.2.2.2.1 (by norm_num [settleTotalDue, settleTotalPaid]),
         h.2.2.2.2 (by norm_num)⟩

/-- C2: in both the settlement flow (`handleConfirm` of Confirmados.js) and the
payment-registration flow (`handleSave` of Solicitados.js) the order status is
resolved by the ordered rule — `remaining ≤ 0` gives Pagado, else
`totalPaid > 0` gives Pago Incompleto, else Pendiente de Pago — and for
baseCost 100, extraCost 10, extraExpenses 0 and payments [30, 20] the ledger
gives totalDue 110, totalPaid 50, remaining 60 and status Pago Incompleto. -/
theorem C2_status_rule :
    (∀ remaining totalPaid : Rat,
        settlePedidoStatus remaining totalPaid = specResolveStatus remaining totalPaid) ∧
    (∀ totalCosto alreadyPaid added : Rat,
        handleSaveStatus totalCosto alreadyPaid added =
          specResolveStatus (max (totalCosto - (alreadyPaid + added)) 0) (alreadyPaid + added)) ∧
    settleTotalDue 100 10 0 = 110 ∧
    settleTotalPaid [⟨"m1", 30, "", "", "", ""⟩, ⟨"m2", 20, "", "", "", ""⟩] = 50 ∧
    settleRemaining 110 50 = 60 ∧
    settlePedidoStatus 60 50 = "Pago Incompleto" := by
  refine ⟨?_, ?_, ?_, ?_, ?_, ?_⟩
  · intro r p
    unfold settlePedidoStatus specResolveStatus
    rcases le_or_lt r 0 with h | h
    · rw [if_neg (not_lt.mpr h), if_pos h]
    · rw [if_pos h, if_neg (not_le.mpr h)]
  · intro tc ap ad
    rfl
  · norm_num [settleTotalDue]
  · norm_num [settleTotalPaid]
  · norm_num [settleRemaining]
  · norm_num [settlePedidoStatus]

/-- C3: if the settlement's order number is empty (after trimming), or the
remaining balance is positive while the group's brand policy does not allow a
pending outcome, `handleConfirm` stops with a validation error and issues zero
store calls — no order create, no payment create, no line update. -/
theorem C3_validation_blocks_writes (g : LineGroup) (pedidoNumero pedidoFecha : String)
    (ca ga : Option Rat) (payments : List SettlePayment)
    (pc lc : List String) (ts nid : String)
    (h : jsTrim pedidoNumero = "" ∨
      (0 < settleRemaining
          (settleTotalDue g.totalCosto (parseFloatOr0 ca) (parseFloatOr0 ga))
          (settleTotalPaid payments) ∧
        canLeavePending g.linea = false)) :
    (∃ msg, handleConfirm g pedidoNumero pedidoFecha ca ga payments pc lc ts nid =
        Except.error msg) ∧
    opsOf (handleConfirm g pedidoNumero pedidoFecha ca ga payments pc lc ts nid) = [] := by
  rcases h with h | h
  · refine ⟨⟨"El número de pedido es requerido.", ?_⟩, ?_⟩ <;>
      simp [handleConfirm, h, opsOf]
  · by_cases ht : jsTrim pedidoNumero = ""
    · refine ⟨⟨"El número de pedido es requerido.", ?_⟩, ?_⟩ <;>
        simp [handleConfirm, ht, opsOf]
    · refine ⟨⟨"Debes cubrir el total. Esta línea no permite dejar pendiente el pago.", ?_⟩, ?_⟩ <;>
        simp [handleConfirm, ht, h.1, h.2, opsOf]

/-- Witness for `C3_validation_blocks_writes`: an empty order number yields no
store calls. -/
theorem C3_witness :
    opsOf (handleConfirm zeroGroup1 "" "" none none [] [] [] "T" "nid") = [] :=
  (C3_validation_blocks_writes zeroGroup1 "" "" none none [] [] [] "T" "nid"
    (Or.inl (by decide))).2

/-- C4: contrary to the claim, neither bulk line update is chunked.  For 51
qualifying lines the selection-confirmation flow issues a single
`updateRecordsAsync` call whose batch holds 51 records, and the settlement
flow's final line-update step likewise issues one call with all 51 member
lines — both exceeding the store's 50-record cap instead of being split. -/
theorem C4_single_oversized_batch :
    (selOpsOf (handleConfirmSelection lines51 "T")).filterMap opBatchSize = [51] ∧
    (opsOf (handleConfirm group51 "P1" "" none none [] [] [] "T" "nid")).filterMap
        opBatchSize = [51] ∧
    50 < 51 := by
  have hall : ∀ r ∈ lines51, (r.estatus == "Abierto") = true := by
    intro r hr
    simp only [lines51, List.mem_map] at hr
    obtain ⟨i, _, rfl⟩ := hr
    rfl
  have hfil : lines51.filter (fun r => r.estatus == "Abierto") = lines51 :=
    List.filter_eq_self.mpr hall
  have hlen : lines51.length = 51 := by simp [lines51]
  refine ⟨?_, ?_, by norm_num⟩
  · simp only [handleConfirmSelection, hfil, hlen]
    norm_num [selOpsOf, opBatchSize, List.filterMap_cons, List.filterMap_nil,
      List.length_map, hlen]
  · have ht : (jsTrim "P1" = "") = False := by
      simp only [eq_iff_iff, iff_false]
      decide
    simp only [handleConfirm, ht, if_false]
    have hrem : settleRemaining
        (settleTotalDue group51.totalCosto (parseFloatOr0 none) (parseFloatOr0 none))
        (settleTotalPaid []) = 0 := by
      norm_num [settleRemaining, settleTotalDue, settleTotalPaid, parseFloatOr0, group51]
    rw [hrem]
    norm_num [opsOf, opBatchSize, List.filterMap_cons, List.filterMap_nil,
      List.length_map, group51, hlen]

/-- C5 (counterexample): the payment-registration flow performs no allowed-value
validation at all.  With a fetched `Estatus` choice set of `["Solicitado"]`,
`handleSave` still writes the computed status `Pagado`, which is neither in
that set nor either of the claimed fallbacks (`Pendiente de Pago` or the first
allowed value `Solicitado`). -/
theorem C5_counterexample :
    handleSave "ped1" 50 0 [⟨"m1", 50, none, none, none⟩] (fun _ => "PAY") =
      Except.ok
        [StoreOp.createRecord "Pagos"
           [("Pedido", FieldValue.links ["ped1"]),
            ("Método de Pago Admin", FieldValue.links ["m1"]),
            ("Abono", FieldValue.num 50),
            ("ID Pago", FieldValue.str "PAY")],
         StoreOp.updateRecord "Pedidos" "ped1"
           [("Estatus", FieldValue.nameObj "Pagado")]] ∧
    "Pagado" ∉ (["Solicitado"] : List String) ∧
    "Pagado" ≠ "Solicitado" ∧
    "Pagado" ≠ "Pendiente de Pago" := by
  refine ⟨?_, by decide, by decide, by decide⟩
  norm_num [handleSave, handleSaveStatus, pagoFields, quienPart, refPart,
    tarjetaPart, List.enum, List.enumFrom]

/-- C5 (amended): only the settlement transaction validates the resolved status
against the dynamically fetched allowed-value set — its `safeStatus` fallback
keeps the status when permitted, else falls back to `Pendiente de Pago` when
that is allowed, else to the first allowed value, so for a nonempty choice set
with a nonempty head the written value always belongs to the set; the
payment-registration flow writes the computed status directly, with no
validation against any fetched set. -/
theorem C5_status_validation (choices : List String) (s c0 : String)
    (h0 : choices.head? = some c0) (hc0 : c0 ≠ "") :
    safeStatus allowedPedidoStatuses choices s ∈ choices ∧
    (s ∉ choices → "Pendiente de Pago" ∈ choices →
      safeStatus allowedPedidoStatuses choices s = "Pendiente de Pago") ∧
    (∀ pid : String, ∀ tc ap : Rat, ∀ p : ModalPayment, ∀ ps : List ModalPayment,
      ∀ genId : Nat → String,
      handleSave pid tc ap (p :: ps) genId =
        Except.ok
          (((p :: ps).enum.map (fun ip =>
              StoreOp.createRecord "Pagos" (pagoFields pid (genId ip.1) ip.2))) ++
            [StoreOp.updateRecord "Pedidos" pid
              [("Estatus", FieldValue.nameObj
                 (handleSaveStatus tc ap
                   (((p :: ps).map ModalPayment.amount).foldl (· + ·) 0)))]])) := by
  refine ⟨?_, ?_, ?_⟩
  · unfold safeStatus
    split
    · next h => exact h.2
    · split
      · next h => exact h
      · cases choices with
        | nil => simp at h0
        | cons c cs =>
          simp only [List.head?_cons, Option.some_inj] at h0
          subst h0
          simp only [List.head?_cons]
          rw [if_neg hc0]
          exact List.mem_cons_self _ _
  · intro hs hp
    unfold safeStatus
    rw [if_neg (fun hc => hs hc.2), if_pos hp]
  · intro pid tc ap p ps genId
    rfl

/-- Witness for `C5_status_validation` with choices `["Solicitado"]` and the
computed status `Pagado`. -/
theorem C5_witness :
    safeStatus allowedPedidoStatuses ["Solicitado"] "Pagado" ∈
      (["Solicitado"] : List String) :=
  (C5_status_validation ["Solicitado"] "Pagado" "Solicitado" rfl (by decide)).1

/-- C6 (counterexample): for a fully paid settlement of a brand absent from the
brand table (`Zara`), the claim says the member lines receive the order's
computed status `Pagado`; the code instead writes the table default
`Pendiente de Pago` to the lines (while the order record itself gets
`Pagado`). -/
theorem C6_counterexample :
    opsOf (handleConfirm zaraGroup "P9" "" none none []
        ["Pagado", "Pendiente de Pago", "Pago Incompleto"]
        ["Pagado", "Pendiente de Pago", "Pago Incompleto"] "T" "nid") =
      [StoreOp.createRecord "Pedidos"
         (settlePedidoFields "T" "P9" "Pagado" "" 0 0 [zaraLine]),
       StoreOp.updateRecords "Líneas de Pedido"
         [settleLineUpdate "T" "P9" "Pendiente de Pago" zaraLine]] ∧
    brandStatusLookup "Zara" = none ∧
    settlePedidoStatus 0 0 = "Pagado" ∧
    ("Pendiente de Pago" : String) ≠ "Pagado" := by
  refine ⟨?_, by decide, by norm_num [settlePedidoStatus], by decide⟩
  have ht : jsTrim "P9" = "P9" := by decide
  have hrem : settleRemaining (settleTotalDue 0 0 0) (settleTotalPaid []) = 0 := by
    norm_num [settleRemaining, settleTotalDue, settleTotalPaid]
  have hped : settlePedidoStatus 0 (settleTotalPaid []) = "Pagado" := by
    norm_num [settlePedidoStatus, settleTotalPaid]
  have hsafe1 : safeStatus allowedPedidoStatuses
      ["Pagado", "Pendiente de Pago", "Pago Incompleto"] "Pagado" = "Pagado" := by decide
  have hraw : jsOrStr (preferredStatus "Zara") "Pagado" = "Pendiente de Pago" := by decide
  have hsafe2 : safeStatus allowedLineaStatuses
      ["Pagado", "Pendiente de Pago", "Pago Incompleto"] "Pendiente de Pago" =
        "Pendiente de Pago" := by decide
  simp [handleConfirm, ht, hrem, hped, hsafe1, hraw, hsafe2, opsOf, zaraGroup,
    parseFloatOr0]

/-- C6 (amended): the status written to a member line is always the brand
table's preferred status — the fallback to the order's computed status is
unreachable because the preferred status is never the empty string: a brand in
the table keeps its table entry, and a brand absent from the table gets the
default `Pendiente de Pago`, never the order's computed status. -/
theorem C6_line_status (linea pedidoStatus : String) :
    jsOrStr (preferredStatus linea) pedidoStatus = preferredStatus linea ∧
    (brandStatusLookup linea = none → preferredStatus linea = "Pendiente de Pago") ∧
    (∀ s, brandStatusLookup linea = some s → preferredStatus linea = s) := by
  have htable : ∀ p ∈ brandStatusTable, p.2 ≠ "" := by decide
  have hval : ∀ s : String, jsOrStr s "Pendiente de Pago" ≠ "" := by
    intro s
    by_cases hs : s = ""
    · rw [jsOrStr, if_pos hs]; decide
    · rw [jsOrStr, if_neg hs]; exact hs
  have hne : preferredStatus linea ≠ "" := by
    unfold preferredStatus
    cases h : brandStatusLookup linea with
    | none => decide
    | some s => exact hval s
  refine ⟨?_, ?_, ?_⟩
  · rw [jsOrStr, if_neg hne]
  · intro h
    unfold preferredStatus
    rw [h]
  · intro s hs
    have hsne : s ≠ "" := by
      unfold brandStatusLookup at hs
      cases hf : brandStatusTable.find? (fun p => p.1 = linea) with
      | none => rw [hf] at hs; simp at hs
      | some p =>
        rw [hf] at hs
        simp only [Option.map_some', Option.some_inj] at hs
        subst hs
        exact htable p (List.mem_of_find?_eq_some hf)
    unfold preferredStatus
    rw [hs]
    show jsOrStr s "Pendiente de Pago" = s
    rw [jsOrStr, if_neg hsne]

/-- Witness for `C6_line_status`: the unknown brand `Zara` yields the default
`Pendiente de Pago` and the known brand `Andrea` its table entry `Pagado`. -/
theorem C6_witness :
    preferredStatus "Zara" = "Pendiente de Pago" ∧ preferredStatus "Andrea" = "Pagado" :=
  ⟨(C6_line_status "Zara" "Pagado").2.1 (by decide),
   (C6_line_status "Andrea" "Pagado").2.2 "Pagado" (by decide)⟩

/-- C7: in the payment-registration modal, a non-numeric or non-positive amount
is rejected with a validation error and nothing is queued; a positive amount
(with a method selected) is queued with amount `min(requested, remaining)`,
where the remaining balance is `max(totalDue − alreadyPaid − queued, 0)` over
the payments already queued but not yet saved. -/
theorem C7_add_payment (metodoPagoId metodoType : Option String)
    (parsedAbono : Option Rat) (quienPago : Option String) (referencia tarjeta : String)
    (totalCosto alreadyPaid : Rat) (payments : List ModalPayment) :
    (parsedAbono = none →
      ∃ msg, handleAddPayment metodoPagoId metodoType parsedAbono quienPago referencia
          tarjeta totalCosto alreadyPaid payments = Except.error msg) ∧
    (∀ a, parsedAbono = some a → a ≤ 0 →
      ∃ msg, handleAddPayment metodoPagoId metodoType parsedAbono quienPago referencia
          tarjeta totalCosto alreadyPaid payments = Except.error msg) ∧
    (∀ a mid, parsedAbono = some a → 0 < a → metodoPagoId = some mid →
      handleAddPayment metodoPagoId metodoType parsedAbono quienPago referencia
          tarjeta totalCosto alreadyPaid payments =
        Except.ok (payments ++
          [mkModalPayment mid metodoType
            (min a (modalRemaining totalCosto alreadyPaid payments))
            quienPago referencia tarjeta])) ∧
    modalRemaining totalCosto alreadyPaid payments =
      max (totalCosto - alreadyPaid - (payments.map ModalPayment.amount).sum) 0 := by
  refine ⟨?_, ?_, ?_, ?_⟩
  · intro h
    subst h
    cases metodoPagoId <;> exact ⟨_, rfl⟩
  · intro a ha hle
    subst ha
    cases metodoPagoId with
    | none => exact ⟨_, rfl⟩
    | some mid =>
      refine ⟨"Please select a payment method and enter a valid amount.", ?_⟩
      simp only [handleAddPayment]
      rw [if_pos (Or.inr hle)]
  · intro a mid ha hpos hmid
    subst ha
    subst hmid
    simp only [handleAddPayment]
    rw [if_neg (by push_neg; exact ⟨ne_of_gt hpos, hpos⟩)]
    rcases lt_or_le (modalRemaining totalCosto alreadyPaid payments) a with hlt | hle
    · rw [if_pos hlt, min_eq_right (le_of_lt hlt)]
    · rw [if_neg (not_lt.mpr hle), min_eq_left hle]
  · rw [modalRemaining, foldl_add_eq_sum, zero_add]

/-- Witness for `C7_add_payment`: requesting 70 against a due of 50 with
nothing yet paid queues a payment clamped to 50. -/
theorem C7_witness :
    handleAddPayment (some "m1") none (some 70) none "" "" 50 0 [] =
      Except.ok [mkModalPayment "m1" none 50 none "" ""] := by
  have h := (C7_add_payment (some "m1") none (some 70) none "" "" 50 0 []).2.2.1
    70 "m1" rfl (by norm_num) rfl
  rw [h]
  norm_num [modalRemaining]

/-- C8 (counterexample): the grouping key is the string concatenation
`pedidoNum ++ "-" ++ linea`, not the pair.  The lines `("A-B", "C")` and
`("A", "B-C")` disagree on both components of the claimed key pair yet land in
the same single group because their concatenations collide on `A-B-C`. -/
theorem C8_counterexample :
    groupLines [collideLine1, collideLine2] =
      [{ pedidoNum := "A-B", linea := "C",
         records := [collideLine1, collideLine2], totalCosto := 0 }] ∧
    collideLine1.pedidoNum ≠ collideLine2.pedidoNum ∧
    collideLine1.linea ≠ collideLine2.linea := by
  refine ⟨?_, by decide, by decide⟩
  simp [groupLines, insertRecord, gKey, lineKey, sentinelPedidoNum, jsOrStr,
    collideLine1, collideLine2, lineCost]

/-- C8 (amended): `groupLines` partitions its input — every input line occurrence
appears in exactly one output group; all members of a group share its
concatenated key string (sentinel-adjusted order number ++ "-" ++ brand) and
distinct groups have distinct key strings, so two lines share a group exactly
when their concatenated keys are equal (agreement on the (order number, brand)
pair is sufficient but, because of delimiter collisions, not necessary); each
group's `totalCosto` is the sum of its members' costs with a missing cost read
as 0, and the group totals sum to the total cost of the input. -/
theorem C8_grouping (rs : List LineRecord) :
    ((groupLines rs).flatMap LineGroup.records).Perm rs ∧
    (∀ g ∈ groupLines rs,
        g.totalCosto = (g.records.map lineCost).sum ∧
          ∀ r ∈ g.records, lineKey r = gKey g) ∧
    ((groupLines rs).map gKey).Nodup ∧
    ((groupLines rs).map LineGroup.totalCosto).sum = (rs.map lineCost).sum := by
  have hinv := foldl_insertRecord_inv rs [] (by simp) (by simp)
  refine ⟨?_, hinv.1, hinv.2, ?_⟩
  · have h := foldl_insertRecord_perm rs []
    simpa [groupLines] using h
  · have h := foldl_insertRecord_total rs []
    simpa [groupLines] using h

/-- Witness for `C8_grouping` on the single line `witLine`. -/
theorem C8_witness :
    ((groupLines [witLine]).flatMap LineGroup.records).Perm [witLine] ∧
    witGroup.totalCosto = (witGroup.records.map lineCost).sum ∧
    lineKey witLine = gKey witGroup := by
  have hmem : witGroup ∈ groupLines [witLine] := by
    simp [groupLines, insertRecord, witGroup, witLine, lineCost, sentinelPedidoNum, jsOrStr]
  have h := C8_grouping [witLine]
  have hg := h.2.1 witGroup hmem
  exact ⟨h.1, hg.1, hg.2 witLine (by simp [witGroup])⟩

/-- C9: contrary to the claim, none of the three flows queries any permission
pre-check before writing.  On concrete inputs, the selection-confirmation,
settlement, and payment-registration traces each contain zero permission-check
calls while containing their store writes. -/
theorem C9_no_permission_checks :
    ((selOpsOf (handleConfirmSelection [openLine1] "T")).countP isPermCheck = 0 ∧
      (selOpsOf (handleConfirmSelection [openLine1] "T")).countP isWrite = 1) ∧
    ((opsOf (handleConfirm zeroGroup1 "P1" "" none none []
          ["Pagado", "Pendiente de Pago", "Pago Incompleto"]
          ["Pagado", "Pendiente de Pago", "Pago Incompleto"] "T" "nid")).countP
        isPermCheck = 0 ∧
      (opsOf (handleConfirm zeroGroup1 "P1" "" none none []
          ["Pagado", "Pendiente de Pago", "Pago Incompleto"]
          ["Pagado", "Pendiente de Pago", "Pago Incompleto"] "T" "nid")).countP
        isWrite = 2) ∧
    ((opsOf (handleSave "ped1" 50 0 [modalPay10] (fun _ => "PAY"))).countP
        isPermCheck = 0 ∧
      (opsOf (handleSave "ped1" 50 0 [modalPay10] (fun _ => "PAY"))).countP
        isWrite = 2) := by
  have hsel : selOpsOf (handleConfirmSelection [openLine1] "T") =
      [StoreOp.updateRecords "Líneas de Pedido" [confirmUpdate "T" openLine1]] := by
    simp [handleConfirmSelection, openLine1, selOpsOf]
  have ht : jsTrim "P1" = "P1" := by decide
  have hrem : settleRemaining (settleTotalDue 0 0 0) (settleTotalPaid []) = 0 := by
    norm_num [settleRemaining, settleTotalDue, settleTotalPaid]
  have hped : settlePedidoStatus 0 (settleTotalPaid []) = "Pagado" := by
    norm_num [settlePedidoStatus, settleTotalPaid]
  have hsafe1 : safeStatus allowedPedidoStatuses
      ["Pagado", "Pendiente de Pago", "Pago Incompleto"] "Pagado" = "Pagado" := by decide
  have hraw : jsOrStr (preferredStatus "Andrea") "Pagado" = "Pagado" := by decide
  have hsafe2 : safeStatus allowedLineaStatuses
      ["Pagado", "Pendiente de Pago", "Pago Incompleto"] "Pagado" = "Pagado" := by decide
  have hconf : opsOf (handleConfirm zeroGroup1 "P1" "" none none []
      ["Pagado", "Pendiente de Pago", "Pago Incompleto"]
      ["Pagado", "Pendiente de Pago", "Pago Incompleto"] "T" "nid") =
      [StoreOp.createRecord "Pedidos" (settlePedidoFields "T" "P1" "Pagado" "" 0 0 [openLine1]),
       StoreOp.updateRecords "Líneas de Pedido"
         [settleLineUpdate "T" "P1" "Pagado" openLine1]] := by
    simp [handleConfirm, ht, hrem, hped, hsafe1, hraw, hsafe2, opsOf, zeroGroup1,
      parseFloatOr0]
  have hsave : opsOf (handleSave "ped1" 50 0 [modalPay10] (fun _ => "PAY")) =
      [StoreOp.createRecord "Pagos" (pagoFields "ped1" "PAY" modalPay10),
       StoreOp.updateRecord "Pedidos" "ped1"
         [("Estatus", FieldValue.nameObj (handleSaveStatus 50 0
            (([modalPay10].map ModalPayment.amount).foldl (· + ·) 0)))]] := by
    simp [handleSave, opsOf, List.enum, List.enumFrom]
  rw [hsel, hconf, hsave]
  refine ⟨⟨?_, ?_⟩, ⟨?_, ?_⟩, ⟨?_, ?_⟩⟩ <;>
    simp [List.countP_cons, List.countP_nil, isPermCheck, isWrite]

theorem mem_quienPart_names (oq : Option String) (n : String) :
    n ∈ (quienPart oq).map Prod.fst ↔
      (n = "Quién Realizó Pago" ∧ ∃ q, oq = some q ∧ q ≠ "") := by
  cases oq with
  | none => simp [quienPart]
  | some q =>
    by_cases hq : q = "" <;> simp [quienPart, hq]

theorem mem_refPart_names (ov : Option String) (n : String) :
    n ∈ (refPart ov).map Prod.fst ↔
      (n = "Número de Referencia" ∧ ∃ v, ov = some v ∧ v ≠ "") := by
  cases ov with
  | none => simp [refPart]
  | some v =>
    by_cases hv : v = "" <;> simp [refPart, hv]

theorem mem_tarjetaPart_names (ov : Option String) (n : String) :
    n ∈ (tarjetaPart ov).map Prod.fst ↔
      (n = "Tarjeta de Débito" ∧ ∃ v, ov = some v ∧ v ≠ "") := by
  cases ov with
  | none => simp [tarjetaPart]
  | some v =>
    by_cases hv : v = "" <;> simp [tarjetaPart, hv]

/-- C10 (counterexample): the settlement flow does not omit empty optional
metadata — the `Pagos` record it creates for a payment with all-empty metadata
strings carries the four metadata fields with explicit `null` values, and such
a record is among the store calls of a concrete settlement. -/
theorem C10_counterexample :
    settlePagoFields "nid" emptyMetaPay =
      [("Pedido", FieldValue.links ["nid"]),
       ("Método de Pago Admin", FieldValue.links ["m1"]),
       ("Abono", FieldValue.num 10),
       ("ID Pago", FieldValue.null),
       ("Fecha Pago", FieldValue.null),
       ("Descripción", FieldValue.null),
       ("Notas", FieldValue.null)] ∧
    StoreOp.createRecord "Pagos" (settlePagoFields "nid" emptyMetaPay) ∈
      opsOf (handleConfirm zeroGroup1 "P1" "" none none [emptyMetaPay]
        ["Pagado", "Pendiente de Pago", "Pago Incompleto"]
        ["Pagado", "Pendiente de Pago", "Pago Incompleto"] "T" "nid") := by
  constructor
  · simp [settlePagoFields, strOrNull, emptyMetaPay]
  · have ht : jsTrim "P1" = "P1" := by decide
    have hrem : settleRemaining (settleTotalDue 0 0 0) (settleTotalPaid [emptyMetaPay]) = 0 := by
      norm_num [settleRemaining, settleTotalDue, settleTotalPaid, emptyMetaPay]
    simp [handleConfirm, ht, hrem, opsOf, zeroGroup1, parseFloatOr0]

/-- C10 (amended): in the payment-registration flow a method-specific metadata
field is attached only when the method's type tag matched at queueing time and
the value is non-empty, and an irrelevant or empty value leaves the field out
of the created record; in the settlement flow, by contrast, the four generic
metadata fields are always present and an empty value is written as an
explicit `null` rather than omitted. -/
theorem C10_metadata_fields (pid idPago : String) (p : ModalPayment)
    (metodoPagoId : String) (metodoType : Option String) (amt : Rat)
    (quienPago : Option String) (referencia tarjeta : String)
    (newPedidoId : String) (sp : SettlePayment) :
    (("Quién Realizó Pago" ∈ (pagoFields pid idPago p).map Prod.fst) ↔
      (∃ q, p.quienPago = some q ∧ q ≠ "")) ∧
    (("Número de Referencia" ∈ (pagoFields pid idPago p).map Prod.fst) ↔
      (∃ v, p.referencia = some v ∧ v ≠ "")) ∧
    (("Tarjeta de Débito" ∈ (pagoFields pid idPago p).map Prod.fst) ↔
      (∃ v, p.tarjeta = some v ∧ v ≠ "")) ∧
    (metodoType ≠ some "Efectivo" →
      (mkModalPayment metodoPagoId metodoType amt quienPago referencia tarjeta).quienPago
        = none) ∧
    (metodoType ≠ some "Vales" →
      (mkModalPayment metodoPagoId metodoType amt quienPago referencia tarjeta).referencia
        = none) ∧
    (metodoType ≠ some "Transferencia" →
      (mkModalPayment metodoPagoId metodoType amt quienPago referencia tarjeta).tarjeta
        = none) ∧
    (sp.idPago = "" →
      ("ID Pago", FieldValue.null) ∈ settlePagoFields newPedidoId sp) ∧
    (sp.idPago ≠ "" →
      ("ID Pago", FieldValue.str sp.idPago) ∈ settlePagoFields newPedidoId sp) := by
  refine ⟨?_, ?_, ?_, ?_, ?_, ?_, ?_, ?_⟩
  · rw [pagoFields]
    simp only [List.map_append, List.mem_append, mem_quienPart_names,
      mem_refPart_names, mem_tarjetaPart_names]
    simp
  · rw [pagoFields]
    simp only [List.map_append, List.mem_append, mem_quienPart_names,
      mem_refPart_names, mem_tarjetaPart_names]
    simp
  · rw [pagoFields]
    simp only [List.map_append, List.mem_append, mem_quienPart_names,
      mem_refPart_names, mem_tarjetaPart_names]
    simp
  · intro h
    simp [mkModalPayment, h]
  · intro h
    simp [mkModalPayment, h]
  · intro h
    simp [mkModalPayment, h]
  · intro h
    simp [settlePagoFields, strOrNull, h]
  · intro h
    simp [settlePagoFields, strOrNull, h]

/-- Witness for `C10_metadata_fields`: a cash-like payment with payer `CANA`
carries the payer field, a voucher metadata value is dropped for a non-voucher
method, and an empty settlement `ID Pago` is written as `null`. -/
theorem C10_witness :
    (("Quién Realizó Pago" ∈
        (pagoFields "ped1" "PAY" ⟨"m1", 10, some "CANA", none, none⟩).map Prod.fst) ↔
      (∃ q, (some "CANA" : Option String) = some q ∧ q ≠ "")) ∧
    (mkModalPayment "m1" (some "Efectivo") 10 (some "CANA") "" "").referencia = none ∧
    ("ID Pago", FieldValue.null) ∈ settlePagoFields "nid" emptyMetaPay := by
  have h := C10_metadata_fields "ped1" "PAY" ⟨"m1", 10, some "CANA", none, none⟩
    "m1" (some "Efectivo") 10 (some "CANA") "" "" "nid" emptyMetaPay
  exact ⟨h.1, h.2.2.2.2.1 (by decide), h.2.2.2.2.2.2.1 (by decide)⟩
